import Mathlib

/-!
Verification of the heart-rate streaming monitor
(`hr-consumer-monitor.py`, `hr-consumer-drop.py`, `hr-consumer-stall.py`,
`hr-producer.py`).

Shallow embedding conventions:
* Python `float` heart-rate values are modelled as `ℚ`; every arithmetic
  operation the source performs on them (subtraction, `max`, `min`,
  comparisons against small integer thresholds) is exact on the
  binary floating-point values the source actually feeds through it, so the
  rational model is faithful for the behaviours under study.
* A `deque(maxlen=n)` holding floats is a `List ℚ`, oldest first;
  `append` on a full deque evicts the head (`dequeAppend`).
* A queue message body `"<timestamp>,<value>"` is modelled after the split
  performed at the top of each callback: `time_stamp` is the raw first
  field, and the result of `float(message[1])` is an `Option ℚ` —
  `some r` when the value field parses, `none` when `float` raises
  `ValueError` (non-numeric value field).
* The outcome of the network interactions inside
  `create_and_send_email_alert` (which exception, if any, the SMTP calls
  raise) is an environment parameter `SmtpOutcome`; the function itself is
  translated to a map from that outcome to what the Python code observably
  does: whether an exception escapes the function, whether the failure was
  logged by the `except` clause, and whether `server.quit()` ran on an
  actual session.
* Each callback is translated to a state-and-trace function: it returns the
  new module-level deque state plus the ordered list of observable events
  (deque pushes, predicate evaluations, alert sends, raised exceptions,
  `basic_ack`).  An exception raised inside the callback aborts the rest of
  the callback (no ack) and terminates `start_consuming` — `main` catches
  it and exits — which the loop runner `runMonitor` reflects by stopping.
-/

/-- Queue name constant from `hr-consumer-monitor.py` line 27. -/
def heart_rate_monitor_queue : String := "01-heart-rate-monitor"

/-- Queue name constant from `hr-consumer-monitor.py` line 28. -/
def heart_rate_drop_queue : String := "02-heart-rate-drop"

/-- Queue name constant from `hr-consumer-monitor.py` line 29. -/
def heart_rate_stall_queue : String := "03-heart-rate-stall"

/-- Queue name constant from `hr-consumer-monitor.py` line 30. -/
def heart_rate_elevated_queue : String := "04-heart-rate-elevated"

/-- `collections.deque(maxlen=cap).append(x)`: when the deque is at its
maximum length, appending evicts the oldest (leftmost) item; otherwise it
just appends.  (States with `length > cap` never arise from an empty
deque.) -/
def dequeAppend (cap : ℕ) (w : List ℚ) (x : ℚ) : List ℚ :=
  if w.length = cap then w.tail ++ [x] else w ++ [x]

/-- Python `max(xs)` on a nonempty list of floats: fold of `max` seeded with
the first element (the seed is irrelevant beyond being a member). -/
def listMax (w : List ℚ) : ℚ := w.foldl max (w.headD 0)

/-- Python `min(xs)` on a nonempty list of floats. -/
def listMin (w : List ℚ) : ℚ := w.foldl min (w.headD 0)

/-- `hr-consumer-monitor.py` lines 123-124: `drop_deque[-1] - drop_deque[0]
<= -15` (evaluated only on a full deque). -/
def dropPredicate (w : List ℚ) : Bool :=
  decide (w.getLastD 0 - w.headD 0 ≤ -15)

/-- `hr-consumer-monitor.py` lines 130-131: `max(stall_deque) -
min(stall_deque) < 1`. -/
def stallPredicate (w : List ℚ) : Bool :=
  decide (listMax w - listMin w < 1)

/-- `hr-consumer-monitor.py` lines 137-138: `elevated_deque[-1] -
elevated_deque[0] >= 20`. -/
def elevatedPredicate (w : List ℚ) : Bool :=
  decide (w.getLastD 0 - w.headD 0 ≥ 20)

/-- The three anomaly patterns. -/
inductive AlertKind
  | drop
  | stall
  | elevated
deriving DecidableEq, Repr

/-- The module-level deques of `hr-consumer-monitor.py` lines 31-33. -/
structure MonitorState where
  drop_deque : List ℚ
  stall_deque : List ℚ
  elevated_deque : List ℚ
deriving DecidableEq, Repr

/-- Process start: all three deques empty. -/
def initialState : MonitorState := ⟨[], [], []⟩

/-- One queue message as seen by a callback after
`body.decode().split(",")`: the raw timestamp field, and the result of
`float(message[1])` — `none` models `float` raising `ValueError`. -/
structure HRMessage where
  time_stamp : String
  valueField : Option ℚ
deriving DecidableEq, Repr

/-- What the network does during one `create_and_send_email_alert` call:
the SMTP constructor raises (connection failure), `login` raises, `
send_message` raises, or everything succeeds. -/
inductive SmtpOutcome
  | connectFail
  | loginFail
  | sendFail
  | success
deriving DecidableEq, Repr

/-- Observable result of one `create_and_send_email_alert` call. -/
structure SinkResult where
  /-- an exception escaped the function into the caller -/
  raised : Bool
  /-- the `except` clause printed "Failed to connect or send email" -/
  loggedFailure : Bool
  /-- `server.quit()` actually ran on a live session -/
  quitRan : Bool
deriving DecidableEq, Repr

/-- `create_and_send_email_alert` (`hr-consumer-monitor.py` lines 74-107),
as a map from the transport outcome to what the code observably does.
The `try` body binds `server` only if the constructor succeeds; the
`except Exception` clause catches connect/login/send failures and logs
them; the `finally` clause executes `server.quit()`.  When the constructor
itself raised, `server` is an unbound local, so the `finally` clause raises
`UnboundLocalError`, which escapes the function; in every other case the
teardown runs on the live session and nothing escapes. -/
def create_and_send_email_alert : SmtpOutcome → SinkResult
  | SmtpOutcome.connectFail => ⟨true, true, false⟩
  | SmtpOutcome.loginFail => ⟨false, true, true⟩
  | SmtpOutcome.sendFail => ⟨false, true, true⟩
  | SmtpOutcome.success => ⟨false, false, true⟩

/-- Observable events of one callback invocation, in program order. -/
inductive Event
  | pushed (k : AlertKind)
  | evaluated (k : AlertKind)
  | alertSent (k : AlertKind)
  | sendRaised (k : AlertKind)
  | parseRaised
  | acked
deriving DecidableEq, Repr

/-- One `if len(deque) == maxlen: if <predicate>: ...alert...` block of
`monitor_callback`.  Returns the events of the block and `true` iff control
reaches the next statement (i.e. no exception escaped an alert send). -/
def runCheck (env : AlertKind → SmtpOutcome) (k : AlertKind)
    (full fires : Bool) : List Event × Bool :=
  if full then
    if fires then
      if (create_and_send_email_alert (env k)).raised then
        ([Event.evaluated k, Event.sendRaised k], false)
      else
        ([Event.evaluated k, Event.alertSent k], true)
    else ([Event.evaluated k], true)
  else ([], true)

/-- The body of `monitor_callback` after the three deque appends
(`hr-consumer-monitor.py` lines 121-145), given the already-updated deques:
run the drop, stall and elevated checks in order and acknowledge the
message as the unconditional last step.  An exception escaping an alert
send aborts the remaining checks and the ack. -/
def monitorChecks (env : AlertKind → SmtpOutcome) (dd sd ed : List ℚ) :
    List Event :=
  let pushes := [Event.pushed AlertKind.drop, Event.pushed AlertKind.stall,
    Event.pushed AlertKind.elevated]
  let dc := runCheck env AlertKind.drop (decide (dd.length = 5)) (dropPredicate dd)
  if dc.2 then
    let sc := runCheck env AlertKind.stall (decide (sd.length = 20)) (stallPredicate sd)
    if sc.2 then
      let ec := runCheck env AlertKind.elevated (decide (ed.length = 4))
        (elevatedPredicate ed)
      if ec.2 then pushes ++ dc.1 ++ sc.1 ++ ec.1 ++ [Event.acked]
      else pushes ++ dc.1 ++ sc.1 ++ ec.1
    else pushes ++ dc.1 ++ sc.1
  else pushes ++ dc.1

/-- `monitor_callback` (`hr-consumer-monitor.py` lines 109-145).  Parses the
value field (raising before touching any deque when it is malformed),
appends the reading to all three deques, then runs the checks and the
acknowledgment. -/
def monitorCallback (env : AlertKind → SmtpOutcome) (st : MonitorState)
    (msg : HRMessage) : MonitorState × List Event :=
  match msg.valueField with
  | none => (st, [Event.parseRaised])
  | some heart_rate =>
    let dd := dequeAppend 5 st.drop_deque heart_rate
    let sd := dequeAppend 20 st.stall_deque heart_rate
    let ed := dequeAppend 4 st.elevated_deque heart_rate
    (⟨dd, sd, ed⟩, monitorChecks env dd sd ed)

/-- The consumer loop over a finite prefix of the stream: each message is
processed by `monitor_callback`; when the callback raises (no `acked`
event), the exception terminates `start_consuming` — `main` catches it and
exits — so no further message is processed. -/
def runMonitor (env : AlertKind → SmtpOutcome) :
    MonitorState → List HRMessage → List (List Event)
  | _, [] => []
  | st, m :: ms =>
    let r := monitorCallback env st m
    if Event.acked ∈ r.2 then r.2 :: runMonitor env r.1 ms
    else [r.2]

/-- A single detector step, as in the per-pattern callbacks
(`drop_callback`, `stall_callback`) and each block of `monitor_callback`:
push the reading, then alert iff the deque is now at capacity and the
predicate holds on it.  Returns the new window and whether an alert
fired. -/
def observe (cap : ℕ) (pred : List ℚ → Bool) (w : List ℚ) (x : ℚ) :
    List ℚ × Bool :=
  let w1 := dequeAppend cap w x
  (w1, decide (w1.length = cap) && pred w1)

/-- Feed a sequence of readings to one detector from an empty window,
collecting the alert decision of every call. -/
def runDetector (cap : ℕ) (pred : List ℚ → Bool) (xs : List ℚ) :
    List ℚ × List Bool :=
  xs.foldl (fun acc x =>
    let r := observe cap pred acc.1 x
    (r.1, acc.2 ++ [r.2])) ([], [])

/-- Channel operations a consumer `main` performs after connecting, in
program order. -/
inductive QOp
  | queue_delete (q : String)
  | queue_declare_durable (q : String)
  | basic_qos (count : ℕ)
  | basic_consume (q : String) (auto_ack : Bool)
deriving DecidableEq, Repr

/-- The channel operations of `main` in `hr-consumer-monitor.py`
(lines 166-182).  The `hn`/`qn` parameters of `main` play no role in this
sequence: every queue name is a module-level constant. -/
def monitorMainOps (_hn _qn : String) : List QOp :=
  [QOp.queue_delete heart_rate_monitor_queue,
   QOp.queue_delete heart_rate_drop_queue,
   QOp.queue_delete heart_rate_stall_queue,
   QOp.queue_delete heart_rate_elevated_queue,
   QOp.queue_declare_durable heart_rate_monitor_queue,
   QOp.queue_declare_durable heart_rate_drop_queue,
   QOp.queue_declare_durable heart_rate_stall_queue,
   QOp.queue_declare_durable heart_rate_elevated_queue,
   QOp.basic_qos 1,
   QOp.basic_consume heart_rate_monitor_queue false]

/-- The channel operations of `main` in `hr-consumer-drop.py`
(lines 136-146). -/
def dropMainOps (_hn _qn : String) : List QOp :=
  [QOp.queue_delete heart_rate_drop_queue,
   QOp.queue_declare_durable heart_rate_drop_queue,
   QOp.basic_qos 1,
   QOp.basic_consume heart_rate_drop_queue false]

/-- The channel operations of `main` in `hr-consumer-stall.py`
(lines 136-146). -/
def stallMainOps (_hn _qn : String) : List QOp :=
  [QOp.queue_delete heart_rate_stall_queue,
   QOp.queue_declare_durable heart_rate_stall_queue,
   QOp.basic_qos 1,
   QOp.basic_consume heart_rate_stall_queue false]

/-- The queues a startup sequence deletes, in order. -/
def deleteTargets (ops : List QOp) : List String :=
  ops.filterMap fun op =>
    match op with
    | QOp.queue_delete q => some q
    | _ => none

/-- The queues a startup sequence declares durable, in order. -/
def declareTargets (ops : List QOp) : List String :=
  ops.filterMap fun op =>
    match op with
    | QOp.queue_declare_durable q => some q
    | _ => none

/-- The queues a startup sequence subscribes to, with the auto-ack flag. -/
def consumeTargets (ops : List QOp) : List (String × Bool) :=
  ops.filterMap fun op =>
    match op with
    | QOp.basic_consume q a => some (q, a)
    | _ => none

/-- The prefetch counts a startup sequence sets, in order. -/
def qosCounts (ops : List QOp) : List ℕ :=
  ops.filterMap fun op =>
    match op with
    | QOp.basic_qos n => some n
    | _ => none

/-- Effect of one channel operation on the broker's queue contents
(pending message bodies per queue name): `queue_delete` destroys the queue
and everything pending on it; declaring a (possibly existing) durable
queue, setting qos and subscribing leave pending messages untouched. -/
def applyOp (s : String → List String) : QOp → (String → List String)
  | QOp.queue_delete q => fun q1 => if q1 = q then [] else s q1
  | _ => s

/-- Effect of a whole startup sequence on the broker's queue contents. -/
def applyOps (ops : List QOp) (s : String → List String) :
    String → List String :=
  ops.foldl applyOp s

/-- Broker flow-control under a prefetch limit: a state is `(pending,
unacked)`; the broker may deliver a pending message only while the
consumer's unacknowledged count is below the limit, and the consumer may
acknowledge a delivered message. -/
inductive BrokerStep (limit : ℕ) : ℕ × ℕ → ℕ × ℕ → Prop
  | deliver (p u : ℕ) : u < limit → BrokerStep limit (p + 1, u) (p, u + 1)
  | ack (p u : ℕ) : BrokerStep limit (p, u + 1) (p, u)

/-- States reachable from a start state with no message in flight. -/
inductive BrokerReach (limit : ℕ) : ℕ × ℕ → Prop
  | init (p : ℕ) : BrokerReach limit (p, 0)
  | step {s t : ℕ × ℕ} : BrokerReach limit s → BrokerStep limit s t →
      BrokerReach limit t

/-- Environment in which every SMTP interaction succeeds. -/
def envAllOk : AlertKind → SmtpOutcome := fun _ => SmtpOutcome.success

/-- Environment in which every SMTP connection attempt fails (server
unreachable: the `smtplib.SMTP`/`SMTP_SSL` constructor raises). -/
def envConnectFail : AlertKind → SmtpOutcome := fun _ => SmtpOutcome.connectFail

/- Helper lemmas: a fold of `max` (resp. `min`) over a list is the supremum
(resp. infimum) of the seed and the elements, hence invariant under
permutation and under replacing the seed by any member of the list. -/

theorem seed_le_foldl_max (l : List ℚ) : ∀ a : ℚ, a ≤ l.foldl max a := by
  induction l with
  | nil => intro a; exact le_refl a
  | cons x xs ih =>
    intro a
    exact le_trans (le_max_left a x) (ih (max a x))

theorem mem_le_foldl_max (l : List ℚ) : ∀ (a b : ℚ), b ∈ l → b ≤ l.foldl max a := by
  induction l with
  | nil => intro a b hb; cases hb
  | cons x xs ih =>
    intro a b hb
    rcases List.mem_cons.mp hb with hb | hb
    · subst hb
      exact le_trans (le_max_right a b) (seed_le_foldl_max xs (max a b))
    · exact ih (max a x) b hb

theorem foldl_max_le (l : List ℚ) :
    ∀ a c : ℚ, a ≤ c → (∀ b ∈ l, b ≤ c) → l.foldl max a ≤ c := by
  induction l with
  | nil => intro a c hac _; exact hac
  | cons x xs ih =>
    intro a c hac hb
    exact ih (max a x) c (max_le hac (hb x (List.mem_cons_self _ _)))
      (fun b hbx => hb b (List.mem_cons_of_mem x hbx))

theorem foldl_min_le_seed (l : List ℚ) : ∀ a : ℚ, l.foldl min a ≤ a := by
  induction l with
  | nil => intro a; exact le_refl a
  | cons x xs ih =>
    intro a
    exact le_trans (ih (min a x)) (min_le_left a x)

theorem foldl_min_le_mem (l : List ℚ) : ∀ (a b : ℚ), b ∈ l → l.foldl min a ≤ b := by
  induction l with
  | nil => intro a b hb; cases hb
  | cons x xs ih =>
    intro a b hb
    rcases List.mem_cons.mp hb with hb | hb
    · subst hb
      exact le_trans (foldl_min_le_seed xs (min a b)) (min_le_right a b)
    · exact ih (min a x) b hb

theorem le_foldl_min (l : List ℚ) :
    ∀ a c : ℚ, c ≤ a → (∀ b ∈ l, c ≤ b) → c ≤ l.foldl min a := by
  induction l with
  | nil => intro a c hac _; exact hac
  | cons x xs ih =>
    intro a c hac hb
    exact ih (min a x) c (le_min hac (hb x (List.mem_cons_self _ _)))
      (fun b hbx => hb b (List.mem_cons_of_mem x hbx))

theorem foldl_max_perm {l₁ l₂ : List ℚ} (h : l₁.Perm l₂) (a : ℚ) :
    l₁.foldl max a = l₂.foldl max a := by
  apply le_antisymm
  · exact foldl_max_le l₁ a _ (seed_le_foldl_max l₂ a)
      (fun b hb => mem_le_foldl_max l₂ a b (h.mem_iff.mp hb))
  · exact foldl_max_le l₂ a _ (seed_le_foldl_max l₁ a)
      (fun b hb => mem_le_foldl_max l₁ a b (h.mem_iff.mpr hb))

theorem foldl_min_perm {l₁ l₂ : List ℚ} (h : l₁.Perm l₂) (a : ℚ) :
    l₁.foldl min a = l₂.foldl min a := by
  apply le_antisymm
  · exact le_foldl_min l₂ a _ (foldl_min_le_seed l₁ a)
      (fun b hb => foldl_min_le_mem l₁ a b (h.mem_iff.mpr hb))
  · exact le_foldl_min l₁ a _ (foldl_min_le_seed l₂ a)
      (fun b hb => foldl_min_le_mem l₂ a b (h.mem_iff.mp hb))

theorem foldl_max_seed_mem (l : List ℚ) (a b : ℚ) (ha : a ∈ l) (hb : b ∈ l) :
    l.foldl max a = l.foldl max b := by
  apply le_antisymm
  · exact foldl_max_le l a _ (mem_le_foldl_max l b a ha)
      (fun c hc => mem_le_foldl_max l b c hc)
  · exact foldl_max_le l b _ (mem_le_foldl_max l a b hb)
      (fun c hc => mem_le_foldl_max l a c hc)

theorem foldl_min_seed_mem (l : List ℚ) (a b : ℚ) (ha : a ∈ l) (hb : b ∈ l) :
    l.foldl min a = l.foldl min b := by
  apply le_antisymm
  · exact le_foldl_min l b _ (foldl_min_le_mem l a b hb)
      (fun c hc => foldl_min_le_mem l a c hc)
  · exact le_foldl_min l a _ (foldl_min_le_mem l b a ha)
      (fun c hc => foldl_min_le_mem l b c hc)

theorem listMax_perm {l₁ l₂ : List ℚ} (h : l₁.Perm l₂) : listMax l₁ = listMax l₂ := by
  cases l₁ with
  | nil =>
    have h2 : l₂ = [] := h.symm.eq_nil
    rw [h2]
  | cons a as =>
    cases l₂ with
    | nil => exact absurd h.eq_nil (by simp)
    | cons b bs =>
      have ha : a ∈ b :: bs := h.mem_iff.mp (List.mem_cons_self _ _)
      have hb : b ∈ b :: bs := List.mem_cons_self _ _
      unfold listMax
      calc ((a :: as).foldl max ((a :: as).headD 0))
          = (a :: as).foldl max a := rfl
        _ = (b :: bs).foldl max a := foldl_max_perm h a
        _ = (b :: bs).foldl max b := foldl_max_seed_mem _ a b ha hb

theorem listMin_perm {l₁ l₂ : List ℚ} (h : l₁.Perm l₂) : listMin l₁ = listMin l₂ := by
  cases l₁ with
  | nil =>
    have h2 : l₂ = [] := h.symm.eq_nil
    rw [h2]
  | cons a as =>
    cases l₂ with
    | nil => exact absurd h.eq_nil (by simp)
    | cons b bs =>
      have ha : a ∈ b :: bs := h.mem_iff.mp (List.mem_cons_self _ _)
      have hb : b ∈ b :: bs := List.mem_cons_self _ _
      unfold listMin
      calc ((a :: as).foldl min ((a :: as).headD 0))
          = (a :: as).foldl min a := rfl
        _ = (b :: bs).foldl min a := foldl_min_perm h a
        _ = (b :: bs).foldl min b := foldl_min_seed_mem _ a b ha hb

/-- C7: for every full stall window, the stall predicate's outcome is
invariant under every permutation of the window's items (it depends only on
the multiset of values via `max` and `min`), while for some full drop
window and some full elevated window a permutation of the items changes the
drop and elevated predicates' outcomes (they depend on the first and last
positions). -/
theorem claimC7_stall_perm_invariant_drop_elevated_not :
    (∀ w₁ w₂ : List ℚ, w₁.length = 20 → w₁.Perm w₂ →
      stallPredicate w₁ = stallPredicate w₂) ∧
    (∃ w₁ w₂ : List ℚ, w₁.length = 5 ∧ w₁.Perm w₂ ∧
      dropPredicate w₁ ≠ dropPredicate w₂) ∧
    (∃ w₁ w₂ : List ℚ, w₁.length = 4 ∧ w₁.Perm w₂ ∧
      elevatedPredicate w₁ ≠ elevatedPredicate w₂) := by
  refine ⟨fun w₁ w₂ _ h => ?_, ?_, ?_⟩
  · unfold stallPredicate
    rw [listMax_perm h, listMin_perm h]
  · refine ⟨[100, 100, 100, 100] ++ [84], 84 :: [100, 100, 100, 100],
      by norm_num, List.perm_append_singleton 84 [100, 100, 100, 100], ?_⟩
    norm_num [dropPredicate]
  · refine ⟨[60, 60, 60] ++ [85], 85 :: [60, 60, 60],
      by norm_num, List.perm_append_singleton 85 [60, 60, 60], ?_⟩
    norm_num [elevatedPredicate]

/-- Witness for C7 at a concrete full stall window and a concrete
transposition of its first two items. -/
theorem claimC7_witness :
    ((72 : ℚ) :: 73 :: List.replicate 18 72).length = 20 ∧
    ((72 : ℚ) :: 73 :: List.replicate 18 72).Perm
      (73 :: 72 :: List.replicate 18 72) ∧
    stallPredicate ((72 : ℚ) :: 73 :: List.replicate 18 72) =
      stallPredicate (73 :: 72 :: List.replicate 18 72) :=
  ⟨by norm_num, List.Perm.swap 73 72 (List.replicate 18 72),
    claimC7_stall_perm_invariant_drop_elevated_not.1 _ _ (by norm_num)
      (List.Perm.swap 73 72 (List.replicate 18 72))⟩

/-- C1: an observe call that makes a detector's window full evaluates
exactly its table predicate and alerts iff it holds — drop (capacity 5):
last minus first ≤ -15; stall (capacity 20): max minus min < 1; elevated
(capacity 4): last minus first ≥ 20 — and on the six concrete sequences of
the spec the alert decisions are exactly as claimed: `[100,100,100,100,84]`
alerts on the 5th drop call while `[100,100,100,100,90]` never alerts;
twenty copies of 72 alert for stall on the 20th call while nineteen copies
of 72 plus one 73.5 never do; `[60,60,60,85]` alerts on the 4th elevated
call while `[60,60,60,75]` never does. -/
theorem claimC1_detector_table_and_examples :
    (∀ (w : List ℚ) (x : ℚ), (dequeAppend 5 w x).length = 5 →
      ((observe 5 dropPredicate w x).2 = true ↔
        (dequeAppend 5 w x).getLastD 0 - (dequeAppend 5 w x).headD 0 ≤ -15)) ∧
    (∀ (w : List ℚ) (x : ℚ), (dequeAppend 20 w x).length = 20 →
      ((observe 20 stallPredicate w x).2 = true ↔
        listMax (dequeAppend 20 w x) - listMin (dequeAppend 20 w x) < 1)) ∧
    (∀ (w : List ℚ) (x : ℚ), (dequeAppend 4 w x).length = 4 →
      ((observe 4 elevatedPredicate w x).2 = true ↔
        (dequeAppend 4 w x).getLastD 0 - (dequeAppend 4 w x).headD 0 ≥ 20)) ∧
    (runDetector 5 dropPredicate [100, 100, 100, 100, 84]).2 =
      [false, false, false, false, true] ∧
    (runDetector 5 dropPredicate [100, 100, 100, 100, 90]).2 =
      [false, false, false, false, false] ∧
    (runDetector 20 stallPredicate (List.replicate 20 72)).2 =
      List.replicate 19 false ++ [true] ∧
    (runDetector 20 stallPredicate (List.replicate 19 72 ++ [73.5])).2 =
      List.replicate 20 false ∧
    (runDetector 4 elevatedPredicate [60, 60, 60, 85]).2 =
      [false, false, false, true] ∧
    (runDetector 4 elevatedPredicate [60, 60, 60, 75]).2 =
      [false, false, false, false] := by
  refine ⟨fun w x h => ?_, fun w x h => ?_, fun w x h => ?_, ?_, ?_, ?_, ?_, ?_, ?_⟩
  · simp [observe, dropPredicate, h]
  · simp [observe, stallPredicate, h]
  · simp [observe, elevatedPredicate, h]
  · norm_num [runDetector, observe, dequeAppend, dropPredicate]
  · norm_num [runDetector, observe, dequeAppend, dropPredicate]
  · norm_num [runDetector, observe, dequeAppend, stallPredicate, listMax,
      listMin, List.replicate, max_def, min_def]
  · norm_num [runDetector, observe, dequeAppend, stallPredicate, listMax,
      listMin, List.replicate, max_def, min_def]
  · norm_num [runDetector, observe, dequeAppend, elevatedPredicate]
  · norm_num [runDetector, observe, dequeAppend, elevatedPredicate]

/-- Witness for C1: a call that fills each window, with the fullness
hypothesis discharged concretely. -/
theorem claimC1_witness :
    (dequeAppend 5 [100, 100, 100, 100] 84).length = 5 ∧
    ((observe 5 dropPredicate [100, 100, 100, 100] 84).2 = true ↔
      (dequeAppend 5 [100, 100, 100, 100] 84).getLastD 0 -
        (dequeAppend 5 [100, 100, 100, 100] 84).headD 0 ≤ -15) ∧
    (dequeAppend 20 (List.replicate 19 72) 72).length = 20 ∧
    ((observe 20 stallPredicate (List.replicate 19 72) 72).2 = true ↔
      listMax (dequeAppend 20 (List.replicate 19 72) 72) -
        listMin (dequeAppend 20 (List.replicate 19 72) 72) < 1) ∧
    (dequeAppend 4 [60, 60, 60] 85).length = 4 ∧
    ((observe 4 elevatedPredicate [60, 60, 60] 85).2 = true ↔
      (dequeAppend 4 [60, 60, 60] 85).getLastD 0 -
        (dequeAppend 4 [60, 60, 60] 85).headD 0 ≥ 20) :=
  ⟨by norm_num [dequeAppend],
    claimC1_detector_table_and_examples.1 [100, 100, 100, 100] 84
      (by norm_num [dequeAppend]),
    by norm_num [dequeAppend],
    claimC1_detector_table_and_examples.2.1 (List.replicate 19 72) 72
      (by norm_num [dequeAppend]),
    by norm_num [dequeAppend],
    claimC1_detector_table_and_examples.2.2.1 [60, 60, 60] 85
      (by norm_num [dequeAppend])⟩

/-- C6: for every capacity, every predicate and every observe call whose
push leaves the window short of capacity, observe produces no alert — and
the predicate is not consulted (the result is `false` uniformly in the
predicate). -/
theorem claimC6_no_alert_below_capacity (cap : ℕ) (pred : List ℚ → Bool)
    (w : List ℚ) (x : ℚ) (h : (dequeAppend cap w x).length < cap) :
    (observe cap pred w x).2 = false := by
  simp [observe, Nat.ne_of_lt h]

/-- Witness for C6: the first reading pushed into the empty drop window. -/
theorem claimC6_witness :
    (dequeAppend 5 [] (70 : ℚ)).length < 5 ∧
    (observe 5 dropPredicate [] (70 : ℚ)).2 = false :=
  ⟨by norm_num [dequeAppend],
    claimC6_no_alert_below_capacity 5 dropPredicate [] 70
      (by norm_num [dequeAppend])⟩

/-- While there is room for the whole batch, `deque.append` is plain
append. -/
theorem foldl_dequeAppend_of_room (cap : ℕ) :
    ∀ (xs w : List ℚ), w.length + xs.length ≤ cap →
      List.foldl (dequeAppend cap) w xs = w ++ xs := by
  intro xs
  induction xs with
  | nil => intro w _; simp
  | cons x t ih =>
    intro w h
    have hlt : w.length ≠ cap := by
      intro he
      rw [he, List.length_cons] at h
      omega
    have hstep : dequeAppend cap w x = w ++ [x] := by
      simp [dequeAppend, hlt]
    have hroom : (w ++ [x]).length + t.length ≤ cap := by
      simp at h ⊢
      omega
    calc List.foldl (dequeAppend cap) w (x :: t)
        = List.foldl (dequeAppend cap) (w ++ [x]) t := by rw [List.foldl_cons, hstep]
      _ = (w ++ [x]) ++ t := ih (w ++ [x]) hroom
      _ = w ++ x :: t := by simp

/-- Once at capacity, the final push of a batch evicts the head. -/
theorem foldl_dequeAppend_overflow (cap : ℕ) (ys : List ℚ) (z : ℚ)
    (h : ys.length = cap) :
    List.foldl (dequeAppend cap) [] (ys ++ [z]) = ys.tail ++ [z] := by
  rw [List.foldl_append]
  rw [foldl_dequeAppend_of_room cap ys [] (by simp [h])]
  simp [dequeAppend, h]

/-- C5: the window length never exceeds its capacity; once at capacity,
each push evicts exactly the oldest item before appending the new one; and
after capacity+1 pushes starting from empty the window is the input minus
its first reading — its length equals the capacity and it no longer
contains the very first pushed reading (whenever that reading does not
reoccur later). -/
theorem claimC5_window_bound_and_eviction (cap : ℕ) (w : List ℚ) (x : ℚ)
    (xs : List ℚ) (hcap : 0 < cap) :
    (w.length ≤ cap → (dequeAppend cap w x).length ≤ cap) ∧
    (w.length = cap → dequeAppend cap w x = w.tail ++ [x]) ∧
    (xs.length = cap + 1 →
      List.foldl (dequeAppend cap) [] xs = xs.tail ∧
      (List.foldl (dequeAppend cap) [] xs).length = cap ∧
      (xs.headD 0 ∉ xs.tail → xs.headD 0 ∉ List.foldl (dequeAppend cap) [] xs)) := by
  refine ⟨?_, ?_, ?_⟩
  · intro hle
    by_cases he : w.length = cap
    · unfold dequeAppend
      rw [if_pos he]
      simp only [List.length_append, List.length_tail, List.length_singleton]
      omega
    · have hlt : w.length < cap := lt_of_le_of_ne hle he
      unfold dequeAppend
      rw [if_neg he]
      simp only [List.length_append, List.length_singleton]
      omega
  · intro he
    simp [dequeAppend, he]
  · intro hlen
    have hne : xs ≠ [] := by
      intro hnil
      rw [hnil] at hlen
      simp at hlen
    obtain ⟨ys, z, hxs⟩ : ∃ ys z, xs = ys ++ [z] :=
      ⟨xs.dropLast, xs.getLast hne, (List.dropLast_append_getLast hne).symm⟩
    subst hxs
    have hys : ys.length = cap := by
      simp at hlen
      omega
    have hysne : ys ≠ [] := by
      intro h0
      rw [h0] at hys
      simp at hys
      omega
    have hfold : List.foldl (dequeAppend cap) [] (ys ++ [z]) = ys.tail ++ [z] :=
      foldl_dequeAppend_overflow cap ys z hys
    have htail : (ys ++ [z]).tail = ys.tail ++ [z] := by
      rcases ys with _ | ⟨a, t⟩
      · exact absurd rfl hysne
      · simp
    refine ⟨by rw [hfold, htail], ?_, ?_⟩
    · rw [hfold]
      simp only [List.length_append, List.length_tail, List.length_singleton]
      omega
    · intro hnm
      rw [hfold, ← htail]
      exact hnm

/-- Witness for C5 at capacity 2: a full window push evicts the oldest
item, and 3 = 2+1 pushes from empty leave the last 2 readings only. -/
theorem claimC5_witness :
    (dequeAppend 2 [(1 : ℚ), 2] 3).length ≤ 2 ∧
    dequeAppend 2 [(1 : ℚ), 2] 3 = List.tail [(1 : ℚ), 2] ++ [3] ∧
    List.foldl (dequeAppend 2) [] [(10 : ℚ), 20, 30] =
      List.tail [(10 : ℚ), 20, 30] ∧
    (List.foldl (dequeAppend 2) [] [(10 : ℚ), 20, 30]).length = 2 ∧
    List.headD [(10 : ℚ), 20, 30] 0 ∉
      List.foldl (dequeAppend 2) [] [(10 : ℚ), 20, 30] :=
  have h := claimC5_window_bound_and_eviction 2 [(1 : ℚ), 2] 3
    [(10 : ℚ), 20, 30] (by norm_num)
  ⟨h.1 (by norm_num), h.2.1 (by norm_num), (h.2.2 (by norm_num)).1,
    (h.2.2 (by norm_num)).2.1, (h.2.2 (by norm_num)).2.2 (by norm_num)⟩

/-- A message whose `"timestamp,value"` payload has a non-numeric value
field: `float(message[1])` raises `ValueError`. -/
def malformedMsg : HRMessage := ⟨"2024-06-10 10:00:00", none⟩

/-- A well-formed reading of 70 bpm. -/
def goodMsg70 : HRMessage := ⟨"2024-06-10 10:00:30", some 70⟩

/-- Counterexample to C2: on a malformed message the callback raises before
touching any deque — the message is NOT acknowledged (no `acked` event),
and the exception terminates the loop, so a following well-formed message
is never processed. -/
theorem claimC2_counterexample :
    monitorCallback envAllOk initialState malformedMsg =
      (initialState, [Event.parseRaised]) ∧
    Event.acked ∉ (monitorCallback envAllOk initialState malformedMsg).2 ∧
    runMonitor envAllOk initialState [malformedMsg, goodMsg70] =
      [[Event.parseRaised]] := by
  refine ⟨rfl, ?_, ?_⟩
  · simp [monitorCallback, malformedMsg]
  · simp [runMonitor, monitorCallback, malformedMsg]

/-- C2 as amended: for every message whose payload fails to parse, the
failed reading is appended to no window (every detector's window is
exactly what it was), but the message is not acknowledged and the consumer
loop terminates: the callback's only event is the raised parse exception,
and no later message is processed. -/
theorem claimC2_amended (env : AlertKind → SmtpOutcome) (st : MonitorState)
    (m : HRMessage) (ms : List HRMessage) (h : m.valueField = none) :
    monitorCallback env st m = (st, [Event.parseRaised]) ∧
    Event.acked ∉ (monitorCallback env st m).2 ∧
    runMonitor env st (m :: ms) = [[Event.parseRaised]] := by
  refine ⟨?_, ?_, ?_⟩
  · simp [monitorCallback, h]
  · simp [monitorCallback, h]
  · simp [runMonitor, monitorCallback, h]

/-- Witness for the amended C2 at a concrete malformed message. -/
theorem claimC2_witness :
    malformedMsg.valueField = none ∧
    monitorCallback envAllOk initialState malformedMsg =
      (initialState, [Event.parseRaised]) ∧
    Event.acked ∉ (monitorCallback envAllOk initialState malformedMsg).2 ∧
    runMonitor envAllOk initialState [malformedMsg] = [[Event.parseRaised]] :=
  have h := claimC2_amended envAllOk initialState malformedMsg [] rfl
  ⟨rfl, h.1, h.2.1, h.2.2⟩

/-- A monitor state whose drop window holds four readings of 100, so that
the next reading of 84 makes it full and fires the drop alert. -/
def dropFullState : MonitorState :=
  ⟨[100, 100, 100, 100], [100, 100, 100, 100], [100, 100, 100]⟩

/-- A reading of 84 bpm. -/
def msg84 : HRMessage := ⟨"2024-06-10 10:02:00", some 84⟩

/-- C3 evaluated at its failing input: when the SMTP constructor raises
(connection failure), `create_and_send_email_alert` lets an exception
escape (`finally: server.quit()` runs with `server` unbound) and no
session teardown runs, so a drop alert whose send hits a connection
failure aborts the callback: the remaining detectors are not checked and
the triggering message is never acknowledged.  When the session was
created (login or send failed), the failure is contained and teardown
runs, as the claim says. -/
theorem claimC3_connect_failure_escapes :
    (create_and_send_email_alert SmtpOutcome.connectFail).raised = true ∧
    (create_and_send_email_alert SmtpOutcome.connectFail).quitRan = false ∧
    (create_and_send_email_alert SmtpOutcome.loginFail).raised = false ∧
    (create_and_send_email_alert SmtpOutcome.loginFail).quitRan = true ∧
    (create_and_send_email_alert SmtpOutcome.sendFail).raised = false ∧
    (create_and_send_email_alert SmtpOutcome.sendFail).quitRan = true ∧
    (monitorCallback envConnectFail dropFullState msg84).2 =
      [Event.pushed AlertKind.drop, Event.pushed AlertKind.stall,
       Event.pushed AlertKind.elevated, Event.evaluated AlertKind.drop,
       Event.sendRaised AlertKind.drop] ∧
    Event.acked ∉ (monitorCallback envConnectFail dropFullState msg84).2 ∧
    runMonitor envConnectFail dropFullState [msg84, goodMsg70] =
      [(monitorCallback envConnectFail dropFullState msg84).2] := by
  refine ⟨rfl, rfl, rfl, rfl, rfl, rfl, ?_, ?_, ?_⟩
  · norm_num [monitorCallback, monitorChecks, msg84, dropFullState, runCheck,
      dequeAppend, dropPredicate, envConnectFail, create_and_send_email_alert]
  · norm_num [monitorCallback, monitorChecks, msg84, dropFullState, runCheck,
      dequeAppend, dropPredicate, envConnectFail, create_and_send_email_alert]
    decide
  · norm_num [runMonitor, monitorCallback, monitorChecks, msg84,
      dropFullState, runCheck, dequeAppend, dropPredicate, envConnectFail,
      create_and_send_email_alert]
    decide

/-- No check block ever emits the `basic_ack` event. -/
theorem acked_not_mem_runCheck (env : AlertKind → SmtpOutcome)
    (k : AlertKind) (full fires : Bool) :
    Event.acked ∉ (runCheck env k full fires).1 := by
  unfold runCheck
  split
  · split
    · split
      · simp
      · simp
    · simp
  · simp

/-- The trace of the check sequence either ends in the single `basic_ack`
event, preceded by the three pushes and the check events, or contains no
ack at all. -/
theorem monitorChecks_acked_cases (env : AlertKind → SmtpOutcome)
    (dd sd ed : List ℚ) :
    (∃ a b c : List Event, Event.acked ∉ a ∧ Event.acked ∉ b ∧
      Event.acked ∉ c ∧
      monitorChecks env dd sd ed =
        [Event.pushed AlertKind.drop, Event.pushed AlertKind.stall,
          Event.pushed AlertKind.elevated] ++ a ++ b ++ c ++ [Event.acked]) ∨
    Event.acked ∉ monitorChecks env dd sd ed := by
  unfold monitorChecks
  by_cases h1 : (runCheck env AlertKind.drop (decide (dd.length = 5))
      (dropPredicate dd)).2
  · by_cases h2 : (runCheck env AlertKind.stall (decide (sd.length = 20))
        (stallPredicate sd)).2
    · by_cases h3 : (runCheck env AlertKind.elevated (decide (ed.length = 4))
          (elevatedPredicate ed)).2
      · left
        refine ⟨(runCheck env AlertKind.drop (decide (dd.length = 5))
            (dropPredicate dd)).1,
          (runCheck env AlertKind.stall (decide (sd.length = 20))
            (stallPredicate sd)).1,
          (runCheck env AlertKind.elevated (decide (ed.length = 4))
            (elevatedPredicate ed)).1,
          acked_not_mem_runCheck env AlertKind.drop _ _,
          acked_not_mem_runCheck env AlertKind.stall _ _,
          acked_not_mem_runCheck env AlertKind.elevated _ _, ?_⟩
        simp only [h1, h2, h3, if_true]
      · right
        simp only [h1, h2, h3, if_true, if_false]
        simp [acked_not_mem_runCheck]
    · right
      simp only [h1, h2, if_true, if_false]
      simp [acked_not_mem_runCheck]
  · right
    simp only [h1, if_false]
    simp [acked_not_mem_runCheck]

/-- C4: the monitor consumer configures the broker with prefetch count
exactly 1 and manual acknowledgment, so in every reachable broker state at
most one delivered message is unacknowledged; and for every successfully
processed message (one whose trace contains the ack at all), the ack is the
unique last event of the callback, issued after all three detectors have
processed the reading. -/
theorem claimC4_single_inflight_ack_last :
    (∀ hn qn : String, qosCounts (monitorMainOps hn qn) = [1] ∧
      consumeTargets (monitorMainOps hn qn) =
        [(heart_rate_monitor_queue, false)]) ∧
    (∀ s : ℕ × ℕ, BrokerReach 1 s → s.2 ≤ 1) ∧
    (∀ (env : AlertKind → SmtpOutcome) (st : MonitorState) (m : HRMessage),
      Event.acked ∈ (monitorCallback env st m).2 →
      (monitorCallback env st m).2.getLast? = some Event.acked ∧
      (monitorCallback env st m).2.count Event.acked = 1 ∧
      ∀ k : AlertKind, Event.pushed k ∈ (monitorCallback env st m).2) := by
  refine ⟨fun hn qn => ⟨rfl, rfl⟩, ?_, ?_⟩
  · intro s h
    induction h with
    | init p => exact Nat.zero_le 1
    | step hr hstep ih =>
      cases hstep with
      | deliver p u hu => simpa using hu
      | ack p u => simp at ih ⊢; omega
  · intro env st m hack
    rcases hm : m.valueField with _ | r
    · exfalso
      simp [monitorCallback, hm] at hack
    · have hct : (monitorCallback env st m).2 =
          monitorChecks env (dequeAppend 5 st.drop_deque r)
            (dequeAppend 20 st.stall_deque r)
            (dequeAppend 4 st.elevated_deque r) := by
        simp [monitorCallback, hm]
      rw [hct] at hack ⊢
      rcases monitorChecks_acked_cases env (dequeAppend 5 st.drop_deque r)
          (dequeAppend 20 st.stall_deque r) (dequeAppend 4 st.elevated_deque r)
        with ⟨a, b, c, ha, hb, hc, heq⟩ | hno
      · rw [heq]
        refine ⟨List.getLast?_concat _, ?_, ?_⟩
        · simp [List.count_append, List.count_eq_zero.mpr ha,
            List.count_eq_zero.mpr hb, List.count_eq_zero.mpr hc]
        · intro k
          cases k <;> simp
      · exact absurd hack hno

/-- Witness for C4: a broker state reached by delivering one message under
prefetch 1, and a concrete well-formed message whose callback trace ends
in the single ack after all three pushes. -/
theorem claimC4_witness :
    ((3, 1) : ℕ × ℕ).2 ≤ 1 ∧
    (monitorCallback envAllOk initialState goodMsg70).2.getLast? =
      some Event.acked ∧
    (monitorCallback envAllOk initialState goodMsg70).2.count Event.acked = 1 ∧
    ∀ k : AlertKind, Event.pushed k ∈
      (monitorCallback envAllOk initialState goodMsg70).2 :=
  have hb : BrokerReach 1 ((3 : ℕ), (1 : ℕ)) :=
    BrokerReach.step (BrokerReach.init 4) (BrokerStep.deliver 3 0 (by norm_num))
  have hm : Event.acked ∈ (monitorCallback envAllOk initialState goodMsg70).2 := by
    norm_num [monitorCallback, monitorChecks, goodMsg70, initialState,
      runCheck, dequeAppend]
  have h2 := claimC4_single_inflight_ack_last.2.2 envAllOk initialState
    goodMsg70 hm
  ⟨claimC4_single_inflight_ack_last.2.1 (3, 1) hb, h2.1, h2.2.1, h2.2.2⟩

/-- Counterexample to C8: the purge is not optional and not gated by any
configuration — the startup channel sequence of every consumer is a fixed
list, independent of the `hn`/`qn` parameters of `main` (the only
configuration a run receives), and it always contains the
`queue_delete` purge of the subscribed queue. -/
theorem claimC8_counterexample :
    monitorMainOps "localhost" "task_queue" =
      monitorMainOps "remotehost" "another_queue" ∧
    QOp.queue_delete heart_rate_monitor_queue ∈
      monitorMainOps "localhost" "task_queue" ∧
    dropMainOps "localhost" "heart_rate_drop_queue" =
      dropMainOps "remotehost" "another_queue" ∧
    QOp.queue_delete heart_rate_drop_queue ∈
      dropMainOps "localhost" "heart_rate_drop_queue" ∧
    stallMainOps "localhost" "heart_rate_stall_queue" =
      stallMainOps "remotehost" "another_queue" ∧
    QOp.queue_delete heart_rate_stall_queue ∈
      stallMainOps "localhost" "heart_rate_stall_queue" := by
  refine ⟨rfl, ?_, rfl, ?_, rfl, ?_⟩
  · simp [monitorMainOps]
  · simp [dropMainOps]
  · simp [stallMainOps]

/-- C8 as amended: at every startup the purge is performed unconditionally
(the startup sequence does not depend on the run's configuration
parameters), and it targets the subscription's queue before that queue is
re-declared durable. -/
theorem claimC8_amended (hn qn hn2 qn2 : String) :
    monitorMainOps hn qn = monitorMainOps hn2 qn2 ∧
    QOp.queue_delete heart_rate_monitor_queue ∈ monitorMainOps hn qn ∧
    (∃ i j : ℕ, i < j ∧
      (monitorMainOps hn qn).get? i =
        some (QOp.queue_delete heart_rate_monitor_queue) ∧
      (monitorMainOps hn qn).get? j =
        some (QOp.queue_declare_durable heart_rate_monitor_queue)) ∧
    dropMainOps hn qn = dropMainOps hn2 qn2 ∧
    QOp.queue_delete heart_rate_drop_queue ∈ dropMainOps hn qn ∧
    (∃ i j : ℕ, i < j ∧
      (dropMainOps hn qn).get? i =
        some (QOp.queue_delete heart_rate_drop_queue) ∧
      (dropMainOps hn qn).get? j =
        some (QOp.queue_declare_durable heart_rate_drop_queue)) ∧
    stallMainOps hn qn = stallMainOps hn2 qn2 ∧
    QOp.queue_delete heart_rate_stall_queue ∈ stallMainOps hn qn ∧
    (∃ i j : ℕ, i < j ∧
      (stallMainOps hn qn).get? i =
        some (QOp.queue_delete heart_rate_stall_queue) ∧
      (stallMainOps hn qn).get? j =
        some (QOp.queue_declare_durable heart_rate_stall_queue)) := by
  refine ⟨rfl, ?_, ⟨0, 4, by norm_num, rfl, rfl⟩, rfl, ?_,
    ⟨0, 1, by norm_num, rfl, rfl⟩, rfl, ?_, ⟨0, 1, by norm_num, rfl, rfl⟩⟩
  · simp [monitorMainOps]
  · simp [dropMainOps]
  · simp [stallMainOps]

/-- The callback never reads the timestamp field: its result depends only
on the parsed value field. -/
theorem monitorCallback_valueField_only (env : AlertKind → SmtpOutcome)
    (st : MonitorState) {m₁ m₂ : HRMessage}
    (h : m₁.valueField = m₂.valueField) :
    monitorCallback env st m₁ = monitorCallback env st m₂ := by
  unfold monitorCallback
  rw [h]

/-- The whole loop depends only on the sequence of value fields. -/
theorem runMonitor_valueField_only (env : AlertKind → SmtpOutcome) :
    ∀ (ms₁ ms₂ : List HRMessage) (st : MonitorState),
      ms₁.map HRMessage.valueField = ms₂.map HRMessage.valueField →
      runMonitor env st ms₁ = runMonitor env st ms₂ := by
  intro ms₁
  induction ms₁ with
  | nil =>
    intro ms₂ st h
    cases ms₂ with
    | nil => rfl
    | cons m₂ t₂ => simp at h
  | cons m t ih =>
    intro ms₂ st h
    cases ms₂ with
    | nil => simp at h
    | cons m₂ t₂ =>
      simp only [List.map_cons, List.cons.injEq] at h
      have hc : monitorCallback env st m = monitorCallback env st m₂ :=
        monitorCallback_valueField_only env st h.1
      simp only [runMonitor]
      rw [hc, ih t₂ (monitorCallback env st m₂).1 h.2]

/-- C9: detection is deterministic and independent of timestamps: two runs
from process start whose message sequences agree on the value fields
(timestamps arbitrary) produce identical event traces — in particular
identical alert decisions for every detector. -/
theorem claimC9_deterministic_timestamp_independent
    (env : AlertKind → SmtpOutcome) (ms₁ ms₂ : List HRMessage)
    (h : ms₁.map HRMessage.valueField = ms₂.map HRMessage.valueField) :
    runMonitor env initialState ms₁ = runMonitor env initialState ms₂ :=
  runMonitor_valueField_only env ms₁ ms₂ initialState h

/-- Witness for C9: the same readings under two different timestamp
sequences. -/
theorem claimC9_witness :
    ([⟨"2024-06-10 10:00:30", some 70⟩, ⟨"2024-06-10 10:01:00", some 85⟩] :
        List HRMessage).map HRMessage.valueField =
      ([⟨"1999-01-01 00:00:00", some 70⟩, ⟨"not a timestamp", some 85⟩] :
        List HRMessage).map HRMessage.valueField ∧
    runMonitor envAllOk initialState
        [⟨"2024-06-10 10:00:30", some 70⟩, ⟨"2024-06-10 10:01:00", some 85⟩] =
      runMonitor envAllOk initialState
        [⟨"1999-01-01 00:00:00", some 70⟩, ⟨"not a timestamp", some 85⟩] :=
  ⟨rfl, claimC9_deterministic_timestamp_independent envAllOk _ _ rfl⟩

/-- C10: at startup the combined monitor deletes and re-declares all four
queues while subscribing only to the combined queue — so any messages
pending on the three per-pattern queues (and the combined one) are
destroyed by starting it — whereas each single-pattern consumer deletes
and re-declares only its own queue and leaves every other queue's pending
messages untouched. -/
theorem claimC10_monitor_purges_all_four_queues (hn qn : String) :
    deleteTargets (monitorMainOps hn qn) =
      [heart_rate_monitor_queue, heart_rate_drop_queue,
       heart_rate_stall_queue, heart_rate_elevated_queue] ∧
    declareTargets (monitorMainOps hn qn) =
      [heart_rate_monitor_queue, heart_rate_drop_queue,
       heart_rate_stall_queue, heart_rate_elevated_queue] ∧
    consumeTargets (monitorMainOps hn qn) =
      [(heart_rate_monitor_queue, false)] ∧
    (∀ s : String → List String,
      applyOps (monitorMainOps hn qn) s heart_rate_drop_queue = [] ∧
      applyOps (monitorMainOps hn qn) s heart_rate_stall_queue = [] ∧
      applyOps (monitorMainOps hn qn) s heart_rate_elevated_queue = [] ∧
      applyOps (monitorMainOps hn qn) s heart_rate_monitor_queue = []) ∧
    deleteTargets (dropMainOps hn qn) = [heart_rate_drop_queue] ∧
    declareTargets (dropMainOps hn qn) = [heart_rate_drop_queue] ∧
    consumeTargets (dropMainOps hn qn) = [(heart_rate_drop_queue, false)] ∧
    deleteTargets (stallMainOps hn qn) = [heart_rate_stall_queue] ∧
    declareTargets (stallMainOps hn qn) = [heart_rate_stall_queue] ∧
    consumeTargets (stallMainOps hn qn) = [(heart_rate_stall_queue, false)] ∧
    (∀ (s : String → List String) (q : String),
      q ≠ heart_rate_drop_queue → applyOps (dropMainOps hn qn) s q = s q) ∧
    (∀ (s : String → List String) (q : String),
      q ≠ heart_rate_stall_queue → applyOps (stallMainOps hn qn) s q = s q) := by
  refine ⟨rfl, rfl, rfl, ?_, rfl, rfl, rfl, rfl, rfl, rfl, ?_, ?_⟩
  · intro s
    refine ⟨?_, ?_, ?_, ?_⟩ <;>
      simp [applyOps, applyOp, monitorMainOps, heart_rate_monitor_queue,
        heart_rate_drop_queue, heart_rate_stall_queue,
        heart_rate_elevated_queue]
  · intro s q hq
    simp [applyOps, applyOp, dropMainOps, hq]
  · intro s q hq
    simp [applyOps, applyOp, stallMainOps, hq]

/-- Witness for C10: starting a single-pattern consumer leaves a pending
message on another pattern's queue untouched. -/
theorem claimC10_witness :
    applyOps (dropMainOps "localhost" "heart_rate_drop_queue")
        (fun _ => ["2024-06-10 10:00:30,70.0"]) heart_rate_stall_queue =
      ["2024-06-10 10:00:30,70.0"] ∧
    applyOps (stallMainOps "localhost" "heart_rate_stall_queue")
        (fun _ => ["2024-06-10 10:00:30,70.0"]) heart_rate_drop_queue =
      ["2024-06-10 10:00:30,70.0"] :=
  ⟨(claimC10_monitor_purges_all_four_queues "localhost"
      "heart_rate_drop_queue").2.2.2.2.2.2.2.2.2.2.1
      (fun _ => ["2024-06-10 10:00:30,70.0"]) heart_rate_stall_queue
      (by simp [heart_rate_stall_queue, heart_rate_drop_queue]),
   (claimC10_monitor_purges_all_four_queues "localhost"
      "heart_rate_stall_queue").2.2.2.2.2.2.2.2.2.2.2
      (fun _ => ["2024-06-10 10:00:30,70.0"]) heart_rate_drop_queue
      (by simp [heart_rate_stall_queue, heart_rate_drop_queue])⟩
